import Mathlib

/-!
Verification of the JNI boundary layer of the tiktoken bridge
(src/jni/src/lib.rs) against its natural-language specification.

The file shallowly embeds the three JNI entry points
(`Java_tiktoken_Encoding_init`, `Java_tiktoken_Encoding_encode`,
`Java_tiktoken_Encoding_destroy`) and the error bridge
(`unwrap_or_throw`).  JNI-provided values are modelled by the result of
the marshalling call that reads them (`get_string` becomes
`Except String String`, an object array of strings becomes
`Except String (List (Except String String))`), the JNI environment by
its pending-exception state, and the per-object `handle` field by an
`Option` over the engine.  Machine integers (`jlong`, `usize`, `jsize`)
are `Int`/`Nat` with explicit reduction modulo `2 ^ 64` where the code
casts.  The tokenizer engine itself lives in the `_tiktoken_core` crate,
which is not part of the boundary layer's sources; it is modelled from
the spec where noted.
-/

namespace TiktokenJni

/-- The JNI environment as seen by this bridge: the only piece of it the
code consults or mutates is the pending-exception state
(`exception_check` / `throw_new`).  `pending = some msg` means a host
exception with message `msg` is in flight. -/
structure JNIEnvState where
  pending : Option String
  deriving Repr, DecidableEq

/-- Modelled from the spec: the constructed tokenizer engine
(`CoreBPENative` of the `_tiktoken_core` crate, out of scope for the
boundary layer).  Its observable behaviour for the bridge is a function
from the input text and the allowed-special-token set to the full
(untruncated) token-id sequence; token ids are the mathematical values
of the engine's unsigned machine words. -/
structure CoreBPENative where
  full : String → List String → List Nat

/-- Modelled from the spec: the engine's `_encode_native` operation.
"when a bound is supplied, encoding may legitimately stop before
consuming all input, and the returned sequence length must not exceed
the bound; when absent, the full input is tokenized" — i.e. a supplied
bound truncates the token sequence at the bound and an absent bound
leaves it whole.  The second and third components of the returned
triple are ignored by the bridge (`let (tokens, _, _) = ...`). -/
def CoreBPENative.encode_native (e : CoreBPENative) (text : String)
    (allowed : List String) (bound : Option Nat) : List Nat × Nat × Nat :=
  match bound with
  | none => (e.full text allowed, 0, 0)
  | some k => ((e.full text allowed).take k, 0, 0)

/-- The per-host-object state: the opaque `handle` field that
`set_rust_field` / `get_rust_field` / `take_rust_field` access.
`none` models a null (never written or taken) field. -/
structure ObjState where
  handle : Option CoreBPENative

/-- The error message produced by the jni crate when
`get_rust_field` / `take_rust_field` is called on a null `handle`
field (a lookup on an uninitialized or destroyed object). -/
def nullPtrError : String := "null pointer in get_rust_field"

/-- `env.get_rust_field(obj, "handle")`: succeeds with the stored engine
when the field is set, fails with the jni null-pointer lookup error
otherwise. -/
def getRustField (obj : ObjState) : Except String CoreBPENative :=
  match obj.handle with
  | some e => Except.ok e
  | none => Except.error nullPtrError

/-- `unwrap_or_throw` (src/jni/src/lib.rs lines 20-37): first checks
whether an exception is already pending; if so, returns the default
without touching the environment.  Otherwise an `Ok` value is returned
as-is and an `Err` is translated into a generic host exception carrying
the error's message (`throw_new`), with the default returned. -/
def unwrap_or_throw {T : Type} (env : JNIEnvState)
    (result : Except String T) (default : T) : T × JNIEnvState :=
  if env.pending.isSome then (default, env)
  else
    match result with
    | Except.ok v => (v, env)
    | Except.error e => (default, { pending := some e })

/-- An encoding configuration from the registry (the `EncodingLazy` of
`_tiktoken_core::openai_public`, out of scope for the boundary layer):
`get` materializes the vocabulary (and may fail), plus the
special-token table and the pre-tokenization pattern string. -/
structure EncodingLazy where
  get : Except String (List (List Nat × Nat))
  special_tokens : List (String × Nat)
  pat_str : String

/-- The fallible body of `Java_tiktoken_Encoding_init`
(src/jni/src/lib.rs lines 41-59, every step short-circuiting with `?`):
read the model-name string, look it up in `MODEL_TO_ENCODING`
(absent: "Unable to find model"), look the encoding name up in
`REGISTRY` (absent: "Unable to find encoding"), materialize the
vocabulary, and construct the engine.  The model-to-encoding table, the
registry and the engine constructor live in `_tiktoken_core` and are
taken as parameters. -/
def initBody (MODEL_TO_ENCODING : String → Option String)
    (REGISTRY : String → Option EncodingLazy)
    (new : List (List Nat × Nat) → List (String × Nat) → String →
      Except String CoreBPENative)
    (model_name : Except String String) : Except String CoreBPENative := do
  let name ← model_name
  let encoding_name ← (MODEL_TO_ENCODING name).elim
    (Except.error "Unable to find model") Except.ok
  let encoding ← (REGISTRY encoding_name).elim
    (Except.error "Unable to find encoding") Except.ok
  let vocab ← encoding.get
  new vocab encoding.special_tokens encoding.pat_str

/-- `Java_tiktoken_Encoding_init` (src/jni/src/lib.rs lines 39-66): run
the fallible body; on success write the engine into the `handle` field
(`set_rust_field`, the last step of the closure, executed before
`unwrap_or_throw` runs), on failure leave the object untouched.  Either
way the result is fed to `unwrap_or_throw` with default `()`. -/
def Java_tiktoken_Encoding_init (MODEL_TO_ENCODING : String → Option String)
    (REGISTRY : String → Option EncodingLazy)
    (new : List (List Nat × Nat) → List (String × Nat) → String →
      Except String CoreBPENative)
    (env : JNIEnvState) (obj : ObjState)
    (model_name : Except String String) : ObjState × JNIEnvState :=
  match initBody MODEL_TO_ENCODING REGISTRY new model_name with
  | Except.ok bpe =>
      (ObjState.mk (some bpe), (unwrap_or_throw env (Except.ok ()) ()).2)
  | Except.error e =>
      (obj, (unwrap_or_throw env (Except.error e) ()).2)

/-- The outcome of `Java_tiktoken_Encoding_destroy`: either the field
was taken successfully, or the `.expect(...)` on a failed
`take_rust_field` aborted the native call with a panic. -/
inductive DestroyOutcome where
  | ok (obj : ObjState)
  | panicked (msg : String)

/-- `Java_tiktoken_Encoding_destroy` (src/jni/src/lib.rs lines 68-73):
`take_rust_field(obj, "handle")` moves the engine out of the field and
drops it; when the field is null the call fails and the surrounding
`.expect("Unable to get handle during destruction")` panics.  Note that
this entry point never consults or sets the pending-exception state. -/
def Java_tiktoken_Encoding_destroy (env : JNIEnvState) (obj : ObjState) :
    DestroyOutcome × JNIEnvState :=
  match obj.handle with
  | some _ => (DestroyOutcome.ok (ObjState.mk none), env)
  | none => (DestroyOutcome.panicked "Unable to get handle during destruction", env)

/-- Marshalling of the `allowed_special_tokens` array elements
(src/jni/src/lib.rs lines 93-98): elements are visited in index order,
each `get_object_array_element` / `get_string` pair short-circuits the
whole loop with `?` on failure, and the collected strings are pushed in
order. -/
def marshalElems : List (Except String String) → Except String (List String)
  | [] => Except.ok []
  | e :: rest => do
      let s ← e
      let ss ← marshalElems rest
      pure (s :: ss)

/-- The `max_token_length as usize` cast (src/jni/src/lib.rs line 102):
a signed 64-bit value reinterpreted as an unsigned 64-bit machine word,
i.e. reduced modulo `2 ^ 64`. -/
def jlongToUsize (v : Int) : Nat := (v % (2 ^ 64 : Int)).toNat

/-- The truncation bound handed to the engine by the encode bridge
(src/jni/src/lib.rs line 102): always `Some` of the wrapped cast of the
`jlong` argument. -/
def passedBound (max_token_length : Int) : Option Nat :=
  some (jlongToUsize max_token_length)

/-- The `*x as i64` cast applied to each token id
(src/jni/src/lib.rs line 107): a `usize` reinterpreted as a signed
64-bit value, two's-complement wrap. -/
def usizeAsI64 (x : Nat) : Int :=
  let m : Nat := x % 2 ^ 64
  if m < 2 ^ 63 then (m : Int) else (m : Int) - 2 ^ 64

/-- The largest value of the `jsize` (`i32`) type, the bound enforced by
`tokens.len().try_into()?` before `new_long_array`. -/
def jsizeMax : Nat := 2 ^ 31 - 1

/-- `tokens.len().try_into()?` (src/jni/src/lib.rs line 105): the
`usize` length converted to `jsize`, failing when it does not fit. -/
def tryIntoJsize (n : Nat) : Except String Nat :=
  if n ≤ jsizeMax then Except.ok n
  else Except.error "out of range integral type conversion attempted"

/-- The fallible body of `Java_tiktoken_Encoding_encode`
(src/jni/src/lib.rs lines 83-111): acquire the handle
(`get_rust_field`), marshal the text, query the array length, marshal
each allowed-special-token element, invoke the engine with the always-
present wrapped bound, convert the length to `jsize`, and build the
output array of `i64`-cast token ids in order. -/
def encodeBody (obj : ObjState) (text : Except String String)
    (allowed_special_tokens : Except String (List (Except String String)))
    (max_token_length : Int) : Except String (List Int) := do
  let enc ← getRustField obj
  let input ← text
  let elems ← allowed_special_tokens
  let strings ← marshalElems elems
  let r := enc.encode_native input strings (passedBound max_token_length)
  let tokens := r.1
  let _ ← tryIntoJsize tokens.length
  pure (tokens.map usizeAsI64)

/-- `Java_tiktoken_Encoding_encode` (src/jni/src/lib.rs lines 75-114):
run the fallible body and feed the result to `unwrap_or_throw` with the
null array (`JObject::null()`, modelled as `none`) as default.  The
returned triple is the jarray result, the (untouched) object state and
the environment. -/
def Java_tiktoken_Encoding_encode (env : JNIEnvState) (obj : ObjState)
    (text : Except String String)
    (allowed_special_tokens : Except String (List (Except String String)))
    (max_token_length : Int) :
    Option (List Int) × ObjState × JNIEnvState :=
  let r := unwrap_or_throw env
    (Except.map some (encodeBody obj text allowed_special_tokens max_token_length))
    none
  (r.1, obj, r.2)

/-- C1: For every entry point and every failure result, if a host exception is
already pending on the calling context when the error bridge runs, no second
exception is thrown and the caller-specified default value is returned with
the environment left untouched; otherwise the failure is translated into a
generic host exception carrying the failure's message, with the default
returned. -/
theorem C1_error_bridge {T : Type} (env : JNIEnvState) (res : Except String T)
    (d : T) :
    (env.pending.isSome = true → unwrap_or_throw env res d = (d, env)) ∧
    (∀ e : String, env.pending = none → res = Except.error e →
      unwrap_or_throw env res d = (d, JNIEnvState.mk (some e))) := by
  constructor
  · intro h
    simp [unwrap_or_throw, h]
  · intro e h1 h2
    subst h2
    simp [unwrap_or_throw, h1]

/-- Witness for C1 at concrete inputs: a pending exception suppresses the
throw and yields the default; with a clear context the error message is
installed as the pending exception. -/
theorem C1_error_bridge_witness :
    unwrap_or_throw (JNIEnvState.mk (some "pending")) (Except.error "boom")
      (0 : Nat) = (0, JNIEnvState.mk (some "pending")) ∧
    unwrap_or_throw (JNIEnvState.mk none) (Except.error "boom")
      (0 : Nat) = (0, JNIEnvState.mk (some "boom")) :=
  ⟨(C1_error_bridge (JNIEnvState.mk (some "pending")) (Except.error "boom") 0).1 rfl,
   (C1_error_bridge (JNIEnvState.mk none) (Except.error "boom") 0).2 "boom" rfl rfl⟩

/-- C9: When a host exception is pending at the time the error bridge runs,
the default value is returned even if the wrapped computation succeeded: for
encode the (possibly fully built) token array is discarded and null is
returned with the environment untouched, and init likewise leaves the
environment untouched, because the pending-exception check precedes
inspection of the result. -/
theorem C9_pending_exception_discards_success (env : JNIEnvState)
    (obj : ObjState) (text : Except String String)
    (arr : Except String (List (Except String String))) (m : Int) (msg : String)
    (h : env.pending = some msg) :
    (Java_tiktoken_Encoding_encode env obj text arr m).1 = none ∧
    (Java_tiktoken_Encoding_encode env obj text arr m).2.2 = env ∧
    (∀ (MODEL_TO_ENCODING : String → Option String)
      (REGISTRY : String → Option EncodingLazy)
      (new : List (List Nat × Nat) → List (String × Nat) → String →
        Except String CoreBPENative)
      (obj2 : ObjState) (name : Except String String),
      (Java_tiktoken_Encoding_init MODEL_TO_ENCODING REGISTRY new env obj2
        name).2 = env) := by
  refine ⟨?_, ?_, ?_⟩
  · simp [Java_tiktoken_Encoding_encode, unwrap_or_throw, h]
  · simp [Java_tiktoken_Encoding_encode, unwrap_or_throw, h]
  · intro M R new obj2 name
    cases hb : initBody M R new name <;>
      simp [Java_tiktoken_Encoding_init, hb, unwrap_or_throw, h]

/-- Witness for C9 at concrete inputs: an encode call whose body succeeds
(valid handle, valid strings) still returns null under a pending exception,
with the environment unchanged. -/
theorem C9_pending_exception_discards_success_witness :
    (Java_tiktoken_Encoding_encode (JNIEnvState.mk (some "p"))
      (ObjState.mk (some (CoreBPENative.mk (fun _ _ => [1, 2]))))
      (Except.ok "hi") (Except.ok []) (-1)).1 = none ∧
    (Java_tiktoken_Encoding_encode (JNIEnvState.mk (some "p"))
      (ObjState.mk (some (CoreBPENative.mk (fun _ _ => [1, 2]))))
      (Except.ok "hi") (Except.ok []) (-1)).2.2 = JNIEnvState.mk (some "p") :=
  ⟨(C9_pending_exception_discards_success (JNIEnvState.mk (some "p"))
      (ObjState.mk (some (CoreBPENative.mk (fun _ _ => [1, 2]))))
      (Except.ok "hi") (Except.ok []) (-1) "p" rfl).1,
   (C9_pending_exception_discards_success (JNIEnvState.mk (some "p"))
      (ObjState.mk (some (CoreBPENative.mk (fun _ _ => [1, 2]))))
      (Except.ok "hi") (Except.ok []) (-1) "p" rfl).2.1⟩

/-- C10: The signed 64-bit max-token-length argument is converted to an
unsigned machine-word bound by a wrapping cast (reduction modulo `2 ^ 64`)
and always handed to the engine as a present bound; in particular the
sentinel `-1` reaches the engine as the bound `2 ^ 64 - 1`, and the engine's
unbounded code path is never taken. -/
theorem C10_wrapping_bound :
    (∀ m : Int, passedBound m = some ((m % (2 ^ 64 : Int)).toNat) ∧
      passedBound m ≠ none) ∧
    passedBound (-1) = some (2 ^ 64 - 1) ∧
    (∀ (e : CoreBPENative) (text : String) (allowed : List String) (m : Int),
      (e.encode_native text allowed (passedBound m)).1
        = (e.full text allowed).take (jlongToUsize m)) := by
  refine ⟨fun m => ⟨rfl, by simp [passedBound]⟩, ?_, fun e t a m => rfl⟩
  rfl

/-- C3 counterexample: destroy, called on an object with no registered handle
(a failure of its only fallible step), aborts with a native panic and throws
no host exception — its failure is not routed through the error bridge. -/
theorem C3_counterexample :
    (Java_tiktoken_Encoding_destroy (JNIEnvState.mk none) (ObjState.mk none)).1
      = DestroyOutcome.panicked "Unable to get handle during destruction" ∧
    (Java_tiktoken_Encoding_destroy (JNIEnvState.mk none)
      (ObjState.mk none)).2.pending = none :=
  ⟨rfl, rfl⟩

/-- C3 (amended): init and encode are wrapped by the Error Bridge — any
failure inside them is surfaced through the pending-exception-checking
translation path — but destroy is not: a failure inside destroy (no
registered handle) surfaces as a native panic and leaves the
pending-exception state untouched. -/
theorem C3_bridge_coverage :
    (∀ (MODEL_TO_ENCODING : String → Option String)
      (REGISTRY : String → Option EncodingLazy)
      (new : List (List Nat × Nat) → List (String × Nat) → String →
        Except String CoreBPENative)
      (env : JNIEnvState) (obj : ObjState) (name : Except String String)
      (e : String),
      env.pending = none →
      initBody MODEL_TO_ENCODING REGISTRY new name = Except.error e →
      (Java_tiktoken_Encoding_init MODEL_TO_ENCODING REGISTRY new env obj
        name).2 = JNIEnvState.mk (some e)) ∧
    (∀ (env : JNIEnvState) (obj : ObjState) (text : Except String String)
      (arr : Except String (List (Except String String))) (m : Int)
      (e : String),
      env.pending = none →
      encodeBody obj text arr m = Except.error e →
      (Java_tiktoken_Encoding_encode env obj text arr m).1 = none ∧
      (Java_tiktoken_Encoding_encode env obj text arr m).2.2
        = JNIEnvState.mk (some e)) ∧
    (∀ (env : JNIEnvState) (obj : ObjState), obj.handle = none →
      (Java_tiktoken_Encoding_destroy env obj).1
        = DestroyOutcome.panicked "Unable to get handle during destruction" ∧
      (Java_tiktoken_Encoding_destroy env obj).2 = env) := by
  refine ⟨?_, ?_, ?_⟩
  · intro M R new env obj name e henv hb
    simp [Java_tiktoken_Encoding_init, hb, unwrap_or_throw, henv]
  · intro env obj text arr m e henv hb
    simp [Java_tiktoken_Encoding_encode, hb, unwrap_or_throw, henv, Except.map]
  · intro env obj h
    simp [Java_tiktoken_Encoding_destroy, h]

/-- Witness for the amended C3 at concrete inputs: a failing init and a
failing encode both install a pending exception, while destroy on an
uninitialized object leaves the environment untouched (it panicked). -/
theorem C3_bridge_coverage_witness :
    (Java_tiktoken_Encoding_init (fun _ => (none : Option String))
      (fun _ => (none : Option EncodingLazy))
      (fun _ _ _ => Except.error "c") (JNIEnvState.mk none) (ObjState.mk none)
      (Except.ok "gpt")).2 = JNIEnvState.mk (some "Unable to find model") ∧
    (Java_tiktoken_Encoding_encode (JNIEnvState.mk none) (ObjState.mk none)
      (Except.ok "") (Except.ok []) 0).2.2 = JNIEnvState.mk (some nullPtrError) ∧
    (Java_tiktoken_Encoding_destroy (JNIEnvState.mk none)
      (ObjState.mk none)).2 = JNIEnvState.mk none :=
  ⟨C3_bridge_coverage.1 (fun _ => none) (fun _ => none)
      (fun _ _ _ => Except.error "c") (JNIEnvState.mk none) (ObjState.mk none)
      (Except.ok "gpt") "Unable to find model" rfl rfl,
   (C3_bridge_coverage.2.1 (JNIEnvState.mk none) (ObjState.mk none)
      (Except.ok "") (Except.ok []) 0 nullPtrError rfl rfl).2,
   (C3_bridge_coverage.2.2 (JNIEnvState.mk none) (ObjState.mk none) rfl).2⟩

/-- Helper: monadic bind on `Except` propagates an error. -/
theorem except_bind_error {ε α β : Type} (e : ε) (f : α → Except ε β) :
    (Except.error e : Except ε α) >>= f = Except.error e := rfl

/-- Helper: monadic bind on `Except` enters the continuation on `ok`. -/
theorem except_bind_ok {ε α β : Type} (a : α) (f : α → Except ε β) :
    (Except.ok a : Except ε α) >>= f = f a := rfl

/-- Helper: `Except.map` propagates an error. -/
theorem except_map_error {ε α β : Type} (f : α → β) (e : ε) :
    Except.map f (Except.error e : Except ε α) = Except.error e := rfl

/-- Helper: `Except.map` applies the function under `ok`. -/
theorem except_map_ok {ε α β : Type} (f : α → β) (a : α) :
    Except.map f (Except.ok a : Except ε α) = Except.ok (f a) := rfl

/-- Helper: an encode call on an object whose `handle` field is null fails at
the `get_rust_field` acquisition with the lookup error — the result is null
and (with no exception pending beforehand) the lookup error becomes the
pending exception. -/
theorem encode_on_missing_handle (env : JNIEnvState) (obj : ObjState)
    (text : Except String String)
    (arr : Except String (List (Except String String))) (m : Int)
    (hobj : obj.handle = none) (henv : env.pending = none) :
    (Java_tiktoken_Encoding_encode env obj text arr m).1 = none ∧
    (Java_tiktoken_Encoding_encode env obj text arr m).2.2
      = JNIEnvState.mk (some nullPtrError) := by
  have hb : encodeBody obj text arr m = Except.error nullPtrError := by
    simp [encodeBody, getRustField, hobj, except_bind_error]
  simp [Java_tiktoken_Encoding_encode, hb, unwrap_or_throw, henv,
    except_map_error]

/-- C4: If any step of init fails, no handle is registered for the object —
the handle field is only written after engine construction succeeds — so the
object state is unchanged (init is safe to retry), and a subsequent encode on
a still-uninitialized object fails with the lookup error rather than
crashing. -/
theorem C4_init_failure_no_handle
    (MODEL_TO_ENCODING : String → Option String)
    (REGISTRY : String → Option EncodingLazy)
    (new : List (List Nat × Nat) → List (String × Nat) → String →
      Except String CoreBPENative)
    (env : JNIEnvState) (obj : ObjState) (name : Except String String)
    (e : String)
    (hfail : initBody MODEL_TO_ENCODING REGISTRY new name = Except.error e) :
    (Java_tiktoken_Encoding_init MODEL_TO_ENCODING REGISTRY new env obj
      name).1 = obj ∧
    (obj.handle = none →
      ∀ (env2 : JNIEnvState) (text : Except String String)
        (arr : Except String (List (Except String String))) (m : Int),
        env2.pending = none →
        (Java_tiktoken_Encoding_encode env2 obj text arr m).1 = none ∧
        (Java_tiktoken_Encoding_encode env2 obj text arr m).2.2
          = JNIEnvState.mk (some nullPtrError)) := by
  constructor
  · simp [Java_tiktoken_Encoding_init, hfail]
  · intro hobj env2 text arr m henv2
    exact encode_on_missing_handle env2 obj text arr m hobj henv2

/-- Witness for C4 at concrete inputs: an unrecognized model name leaves the
object uninitialized and a subsequent encode on it returns null. -/
theorem C4_init_failure_no_handle_witness :
    (Java_tiktoken_Encoding_init (fun _ => (none : Option String))
      (fun _ => (none : Option EncodingLazy)) (fun _ _ _ => Except.error "c")
      (JNIEnvState.mk none) (ObjState.mk none) (Except.ok "no-such-model")).1
      = ObjState.mk none ∧
    (Java_tiktoken_Encoding_encode (JNIEnvState.mk none) (ObjState.mk none)
      (Except.ok "t") (Except.ok []) 5).1 = none :=
  ⟨(C4_init_failure_no_handle (fun _ => (none : Option String))
      (fun _ => (none : Option EncodingLazy)) (fun _ _ _ => Except.error "c")
      (JNIEnvState.mk none) (ObjState.mk none) (Except.ok "no-such-model")
      "Unable to find model" rfl).1,
   ((C4_init_failure_no_handle (fun _ => (none : Option String))
      (fun _ => (none : Option EncodingLazy)) (fun _ _ _ => Except.error "c")
      (JNIEnvState.mk none) (ObjState.mk none) (Except.ok "no-such-model")
      "Unable to find model" rfl).2 rfl (JNIEnvState.mk none) (Except.ok "t")
      (Except.ok []) 5 rfl).1⟩

/-- C5: After destroy runs on a successfully initialized object the handle is
removed (the engine's ownership is taken out of the field, which becomes
null), any further acquisition of the handle fails with the lookup error,
and a subsequent encode on the destroyed object returns null with the lookup
error pending rather than silently using a stale engine. -/
theorem C5_destroy_invalidates (env : JNIEnvState) (obj : ObjState)
    (eng : CoreBPENative) (h : obj.handle = some eng) :
    (Java_tiktoken_Encoding_destroy env obj).1
      = DestroyOutcome.ok (ObjState.mk none) ∧
    getRustField (ObjState.mk none) = Except.error nullPtrError ∧
    (∀ (env2 : JNIEnvState) (text : Except String String)
      (arr : Except String (List (Except String String))) (m : Int),
      env2.pending = none →
      (Java_tiktoken_Encoding_encode env2 (ObjState.mk none) text arr m).1
        = none ∧
      (Java_tiktoken_Encoding_encode env2 (ObjState.mk none) text arr m).2.2
        = JNIEnvState.mk (some nullPtrError)) :=
  ⟨by simp [Java_tiktoken_Encoding_destroy, h], rfl,
   fun env2 text arr m henv2 =>
     encode_on_missing_handle env2 (ObjState.mk none) text arr m rfl henv2⟩

/-- Witness for C5 at concrete inputs: destroying an initialized object
yields the empty handle state, and an encode on that state returns null. -/
theorem C5_destroy_invalidates_witness :
    (Java_tiktoken_Encoding_destroy (JNIEnvState.mk none)
      (ObjState.mk (some (CoreBPENative.mk (fun _ _ => [3]))))).1
      = DestroyOutcome.ok (ObjState.mk none) ∧
    (Java_tiktoken_Encoding_encode (JNIEnvState.mk none) (ObjState.mk none)
      (Except.ok "x") (Except.ok []) 1).1 = none :=
  ⟨(C5_destroy_invalidates (JNIEnvState.mk none)
      (ObjState.mk (some (CoreBPENative.mk (fun _ _ => [3]))))
      (CoreBPENative.mk (fun _ _ => [3])) rfl).1,
   ((C5_destroy_invalidates (JNIEnvState.mk none)
      (ObjState.mk (some (CoreBPENative.mk (fun _ _ => [3]))))
      (CoreBPENative.mk (fun _ _ => [3])) rfl).2.2 (JNIEnvState.mk none)
      (Except.ok "x") (Except.ok []) 1 rfl).1⟩

/-- C6: Every encode call — failing or not — leaves the object state (the
registered handle and its engine) unchanged, and a registered engine is
still acquirable after the call. -/
theorem C6_encode_frame (env : JNIEnvState) (obj : ObjState)
    (text : Except String String)
    (arr : Except String (List (Except String String))) (m : Int) :
    (Java_tiktoken_Encoding_encode env obj text arr m).2.1 = obj ∧
    (Java_tiktoken_Encoding_encode env obj text arr m).2.1.handle
      = obj.handle ∧
    (∀ eng : CoreBPENative, obj.handle = some eng →
      getRustField (Java_tiktoken_Encoding_encode env obj text arr m).2.1
        = Except.ok eng) := by
  refine ⟨rfl, rfl, fun eng h => ?_⟩
  simp [Java_tiktoken_Encoding_encode, getRustField, h]

/-- Witness for C6 at concrete inputs: after an encode call (here a failing
one, marshalling a bad element) the handle is unchanged and its engine is
still acquirable. -/
theorem C6_encode_frame_witness :
    (Java_tiktoken_Encoding_encode (JNIEnvState.mk none)
      (ObjState.mk (some (CoreBPENative.mk (fun _ _ => [7]))))
      (Except.ok "a") (Except.ok [Except.error "bad"]) 0).2.1
      = ObjState.mk (some (CoreBPENative.mk (fun _ _ => [7]))) ∧
    getRustField (Java_tiktoken_Encoding_encode (JNIEnvState.mk none)
      (ObjState.mk (some (CoreBPENative.mk (fun _ _ => [7]))))
      (Except.ok "a") (Except.ok [Except.error "bad"]) 0).2.1
      = Except.ok (CoreBPENative.mk (fun _ _ => [7])) :=
  ⟨(C6_encode_frame (JNIEnvState.mk none)
      (ObjState.mk (some (CoreBPENative.mk (fun _ _ => [7]))))
      (Except.ok "a") (Except.ok [Except.error "bad"]) 0).1,
   (C6_encode_frame (JNIEnvState.mk none)
      (ObjState.mk (some (CoreBPENative.mk (fun _ _ => [7]))))
      (Except.ok "a") (Except.ok [Except.error "bad"]) 0).2.2
      (CoreBPENative.mk (fun _ _ => [7])) rfl⟩

/-- C7: If marshalling any single element of the allowed-special-tokens array
fails, the whole encode call is aborted with that element's error — the
result is null and the error becomes the pending exception — and no partial
allowed-special-token set is ever passed to the engine: the engine's encode
is not invoked, so the outcome is independent of which engine the handle
holds. -/
theorem C7_element_marshal_aborts (env : JNIEnvState)
    (eng eng2 : CoreBPENative) (s : String)
    (elems : List (Except String String)) (m : Int) (e : String)
    (hmar : marshalElems elems = Except.error e) (henv : env.pending = none) :
    (Java_tiktoken_Encoding_encode env (ObjState.mk (some eng)) (Except.ok s)
      (Except.ok elems) m).1 = none ∧
    (Java_tiktoken_Encoding_encode env (ObjState.mk (some eng)) (Except.ok s)
      (Except.ok elems) m).2.2 = JNIEnvState.mk (some e) ∧
    (Java_tiktoken_Encoding_encode env (ObjState.mk (some eng)) (Except.ok s)
      (Except.ok elems) m).1
      = (Java_tiktoken_Encoding_encode env (ObjState.mk (some eng2))
        (Except.ok s) (Except.ok elems) m).1 ∧
    (Java_tiktoken_Encoding_encode env (ObjState.mk (some eng)) (Except.ok s)
      (Except.ok elems) m).2.2
      = (Java_tiktoken_Encoding_encode env (ObjState.mk (some eng2))
        (Except.ok s) (Except.ok elems) m).2.2 := by
  have hb : ∀ g : CoreBPENative,
      encodeBody (ObjState.mk (some g)) (Except.ok s) (Except.ok elems) m
        = Except.error e := by
    intro g
    show Except.bind (marshalElems elems) _ = Except.error e
    rw [hmar]
    rfl
  refine ⟨?_, ?_, ?_, ?_⟩ <;>
    simp [Java_tiktoken_Encoding_encode, hb, unwrap_or_throw, henv,
      except_map_error]

/-- Witness for C7 at concrete inputs: a bad element aborts the call with
its error, identically for two different engines. -/
theorem C7_element_marshal_aborts_witness :
    (Java_tiktoken_Encoding_encode (JNIEnvState.mk none)
      (ObjState.mk (some (CoreBPENative.mk (fun _ _ => [1]))))
      (Except.ok "s") (Except.ok [Except.error "bad"]) 2).1 = none ∧
    (Java_tiktoken_Encoding_encode (JNIEnvState.mk none)
      (ObjState.mk (some (CoreBPENative.mk (fun _ _ => [1]))))
      (Except.ok "s") (Except.ok [Except.error "bad"]) 2).2.2
      = JNIEnvState.mk (some "bad") :=
  ⟨(C7_element_marshal_aborts (JNIEnvState.mk none)
      (CoreBPENative.mk (fun _ _ => [1])) (CoreBPENative.mk (fun _ _ => [2]))
      "s" [Except.error "bad"] 2 "bad" rfl rfl).1,
   (C7_element_marshal_aborts (JNIEnvState.mk none)
      (CoreBPENative.mk (fun _ _ => [1])) (CoreBPENative.mk (fun _ _ => [2]))
      "s" [Except.error "bad"] 2 "bad" rfl rfl).2.1⟩

/-- Helper: the encode body on a registered engine, a well-formed text and a
fully marshallable allowed-special-tokens array produces the engine's
(bounded) token sequence cast elementwise to signed 64-bit, provided the
sequence length fits in `jsize`. -/
theorem encodeBody_success (eng : CoreBPENative) (s : String)
    (elems : List (Except String String)) (l : List String) (m : Int)
    (hmar : marshalElems elems = Except.ok l)
    (hlen : (eng.encode_native s l (passedBound m)).1.length ≤ jsizeMax) :
    encodeBody (ObjState.mk (some eng)) (Except.ok s) (Except.ok elems) m
      = Except.ok ((eng.encode_native s l (passedBound m)).1.map usizeAsI64) := by
  show Except.bind (marshalElems elems) _ = _
  rw [hmar]
  show Except.bind
    (tryIntoJsize (eng.encode_native s l (passedBound m)).1.length) _ = _
  simp only [tryIntoJsize]
  rw [if_pos hlen]
  rfl

/-- Helper: when the token sequence does not fit in `jsize`, the encode body
fails at the length conversion. -/
theorem encodeBody_overflow (eng : CoreBPENative) (s : String)
    (elems : List (Except String String)) (l : List String) (m : Int)
    (hmar : marshalElems elems = Except.ok l)
    (hlen : ¬ (eng.encode_native s l (passedBound m)).1.length ≤ jsizeMax) :
    encodeBody (ObjState.mk (some eng)) (Except.ok s) (Except.ok elems) m
      = Except.error "out of range integral type conversion attempted" := by
  show Except.bind (marshalElems elems) _ = _
  rw [hmar]
  show Except.bind
    (tryIntoJsize (eng.encode_native s l (passedBound m)).1.length) _ = _
  simp only [tryIntoJsize]
  rw [if_neg hlen]
  rfl

/-- Helper: full characterization of the encode result on a registered
engine, a well-formed text and a fully marshallable array, with no pending
exception: the mapped (bounded) token sequence when its length fits in
`jsize`, null otherwise. -/
theorem encode_result (env : JNIEnvState) (eng : CoreBPENative) (s : String)
    (elems : List (Except String String)) (l : List String) (m : Int)
    (henv : env.pending = none) (hmar : marshalElems elems = Except.ok l) :
    (Java_tiktoken_Encoding_encode env (ObjState.mk (some eng)) (Except.ok s)
      (Except.ok elems) m).1
      = if (eng.encode_native s l (passedBound m)).1.length ≤ jsizeMax
        then some ((eng.encode_native s l (passedBound m)).1.map usizeAsI64)
        else none := by
  by_cases hlen : (eng.encode_native s l (passedBound m)).1.length ≤ jsizeMax
  · rw [if_pos hlen]
    have hb := encodeBody_success eng s elems l m hmar hlen
    simp [Java_tiktoken_Encoding_encode, hb, unwrap_or_throw, henv,
      except_map_ok]
  · rw [if_neg hlen]
    have hb := encodeBody_overflow eng s elems l m hmar hlen
    simp [Java_tiktoken_Encoding_encode, hb, unwrap_or_throw, henv,
      except_map_error]

/-- Helper: the `usize as i64` cast is the identity on values below
`2 ^ 63`. -/
theorem usizeAsI64_of_lt (t : Nat) (h : t < 2 ^ 63) : usizeAsI64 t = (t : Int) := by
  have h64 : t % 2 ^ 64 = t := Nat.mod_eq_of_lt (lt_trans h (by norm_num))
  show (if t % 2 ^ 64 < 2 ^ 63 then ((t % 2 ^ 64 : Nat) : Int)
    else ((t % 2 ^ 64 : Nat) : Int) - 2 ^ 64) = (t : Int)
  rw [h64, if_pos h]

/-- Helper: elementwise, the `usize as i64` cast of a sequence of values
below `2 ^ 63` is the plain embedding into the integers. -/
theorem map_usizeAsI64_small (ts : List Nat) (h : ∀ t ∈ ts, t < 2 ^ 63) :
    ts.map usizeAsI64 = ts.map Int.ofNat := by
  induction ts with
  | nil => rfl
  | cons t ts ih =>
    simp only [List.map_cons]
    rw [usizeAsI64_of_lt t (h t (by simp)),
      ih (fun x hx => h x (by simp [hx]))]
    rfl

/-- C2: The max-token-length input is optional via the `-1` sentinel: when a
(non-negative, in-range) bound is supplied, the returned sequence length
does not exceed the bound; when the bound is absent (sentinel `-1`), the
full token sequence of the input text is returned with no truncation
applied. -/
theorem C2_truncation_semantics (env : JNIEnvState) (eng : CoreBPENative)
    (s : String) (elems : List (Except String String)) (l : List String)
    (henv : env.pending = none) (hmar : marshalElems elems = Except.ok l) :
    (∀ (m : Int) (out : List Int), 0 ≤ m → m < 2 ^ 63 →
      (Java_tiktoken_Encoding_encode env (ObjState.mk (some eng))
        (Except.ok s) (Except.ok elems) m).1 = some out →
      out.length ≤ m.toNat) ∧
    ((eng.full s l).length ≤ jsizeMax →
      (Java_tiktoken_Encoding_encode env (ObjState.mk (some eng))
        (Except.ok s) (Except.ok elems) (-1)).1
        = some ((eng.full s l).map usizeAsI64)) := by
  constructor
  · intro m out hm hm2 hout
    rw [encode_result env eng s elems l m henv hmar] at hout
    by_cases hlen : (eng.encode_native s l (passedBound m)).1.length ≤ jsizeMax
    · rw [if_pos hlen] at hout
      have hval := Option.some.inj hout
      have hju : jlongToUsize m = m.toNat := by
        have hlt : m < (2 : Int) ^ 64 := lt_trans hm2 (by norm_num)
        unfold jlongToUsize
        rw [Int.emod_eq_of_lt hm hlt]
      calc out.length
          = ((eng.encode_native s l (passedBound m)).1.map usizeAsI64).length := by
            rw [hval]
        _ = ((eng.full s l).take (jlongToUsize m)).length := by
            simp [CoreBPENative.encode_native, passedBound]
        _ ≤ jlongToUsize m := by
            rw [List.length_take]
            exact Nat.min_le_left _ _
        _ = m.toNat := hju
    · rw [if_neg hlen] at hout
      exact absurd hout (by simp)
  · intro hfull
    have htake : (eng.full s l).take (jlongToUsize (-1)) = eng.full s l := by
      refine List.take_of_length_le ?_
      have : jlongToUsize (-1) = 2 ^ 64 - 1 := rfl
      rw [this]
      calc (eng.full s l).length ≤ jsizeMax := hfull
        _ ≤ 2 ^ 64 - 1 := by norm_num [jsizeMax]
    have hnat : (eng.encode_native s l (passedBound (-1))).1 = eng.full s l := by
      simp [CoreBPENative.encode_native, passedBound, htake]
    rw [encode_result env eng s elems l (-1) henv hmar, hnat, if_pos hfull]

/-- Witness for C2 at concrete inputs: with bound 2 the returned sequence
has length at most 2, and with the `-1` sentinel the full three-token
sequence is returned. -/
theorem C2_truncation_semantics_witness :
    ([5, 6] : List Int).length ≤ (2 : Int).toNat ∧
    (Java_tiktoken_Encoding_encode (JNIEnvState.mk none)
      (ObjState.mk (some (CoreBPENative.mk (fun _ _ => [5, 6, 7]))))
      (Except.ok "abc") (Except.ok []) (-1)).1 = some [5, 6, 7] :=
  ⟨(C2_truncation_semantics (JNIEnvState.mk none)
      (CoreBPENative.mk (fun _ _ => [5, 6, 7])) "abc" [] [] rfl rfl).1
      2 [5, 6] (by decide) (by decide) rfl,
   (C2_truncation_semantics (JNIEnvState.mk none)
      (CoreBPENative.mk (fun _ _ => [5, 6, 7])) "abc" [] [] rfl rfl).2
      (by decide)⟩

/-- C8 counterexample: the claim that element i of the returned array is
engine token i fails at the wrapping `as i64` cast — an engine token of
value `2 ^ 63` comes back as the negative value `-2 ^ 63`, not as itself. -/
theorem C8_counterexample :
    (Java_tiktoken_Encoding_encode (JNIEnvState.mk none)
      (ObjState.mk (some (CoreBPENative.mk (fun _ _ => [2 ^ 63]))))
      (Except.ok "") (Except.ok []) 1).1 = some [-(2 ^ 63 : Int)] ∧
    -(2 ^ 63 : Int) ≠ ((2 ^ 63 : Nat) : Int) := by
  exact ⟨rfl, by decide⟩

/-- C8 (amended): for every successful encode call the returned host array
is a fresh value fully determined by the engine's token sequence — its
length equals the sequence's length and element i is engine token i cast to
signed 64-bit by two's-complement wrap, which is token i itself whenever
token i is below `2 ^ 63` — and nothing is retained on the native side: the
object state comes back unchanged. -/
theorem C8_array_marshalling (env : JNIEnvState) (eng : CoreBPENative)
    (s : String) (elems : List (Except String String)) (l : List String)
    (m : Int) (tokens : List Nat)
    (henv : env.pending = none) (hmar : marshalElems elems = Except.ok l)
    (htok : (eng.encode_native s l (passedBound m)).1 = tokens)
    (hlen : tokens.length ≤ jsizeMax) :
    (Java_tiktoken_Encoding_encode env (ObjState.mk (some eng)) (Except.ok s)
      (Except.ok elems) m).1 = some (tokens.map usizeAsI64) ∧
    (tokens.map usizeAsI64).length = tokens.length ∧
    ((∀ t ∈ tokens, t < 2 ^ 63) →
      tokens.map usizeAsI64 = tokens.map Int.ofNat) ∧
    (Java_tiktoken_Encoding_encode env (ObjState.mk (some eng)) (Except.ok s)
      (Except.ok elems) m).2.1 = ObjState.mk (some eng) := by
  subst htok
  refine ⟨?_, by simp, map_usizeAsI64_small _, rfl⟩
  rw [encode_result env eng s elems l m henv hmar, if_pos hlen]

/-- Witness for the amended C8 at concrete inputs: three small tokens come
back as themselves, in order, with the handle unchanged. -/
theorem C8_array_marshalling_witness :
    (Java_tiktoken_Encoding_encode (JNIEnvState.mk none)
      (ObjState.mk (some (CoreBPENative.mk (fun _ _ => [10, 11, 12]))))
      (Except.ok "xy") (Except.ok []) 3).1
      = some (([10, 11, 12] : List Nat).map usizeAsI64) ∧
    (([10, 11, 12] : List Nat).map usizeAsI64).length
      = ([10, 11, 12] : List Nat).length :=
  ⟨(C8_array_marshalling (JNIEnvState.mk none)
      (CoreBPENative.mk (fun _ _ => [10, 11, 12])) "xy" [] [] 3
      [10, 11, 12] rfl rfl rfl (by decide)).1,
   (C8_array_marshalling (JNIEnvState.mk none)
      (CoreBPENative.mk (fun _ _ => [10, 11, 12])) "xy" [] [] 3
      [10, 11, 12] rfl rfl rfl (by decide)).2.1⟩

end TiktokenJni
